import Mathlib

/-!
Shallow embedding of the D365Connector core (OBO token broker and downstream
CRUD proxy) and proofs about its specification.

External library calls (the jose jwtVerify, node crypto digest, fetch) are
modelled as oracle parameters; everything the repository itself computes is
translated directly from the source.
-/

namespace D365

/-- Configuration drawn from the environment at construction time
(TENANT_ID, API_EAS_CLIENT_ID, API_EAS_CLIENT_SECRET, FO_URL with trailing
slash stripped, API_EXPECTED_AUDIENCE). -/
structure Env where
  TENANT_ID : String
  API_EAS_CLIENT_ID : String
  API_EAS_CLIENT_SECRET : String
  FO_URL : String
  API_EXPECTED_AUDIENCE : String
deriving DecidableEq

/-- ISSUER_V2 = https,//login.microsoftonline.com/TENANT_ID/v2.0 -/
def ISSUER_V2 (env : Env) : String :=
  "https://login.microsoftonline.com/" ++ env.TENANT_ID ++ "/v2.0"

/-- ISSUER_V1 = https,//sts.windows.net/TENANT_ID/ -/
def ISSUER_V1 (env : Env) : String :=
  "https://sts.windows.net/" ++ env.TENANT_ID ++ "/"

/-- The literal allow-list used in validateInboundJwt, in source order. -/
def allowedIssuers (env : Env) : List String :=
  [ISSUER_V2 env, ISSUER_V1 env]

/-- Which remote key-set a jwtVerify call is made against. -/
inductive KeySet
  | v2
  | v1
deriving DecidableEq

/-- The decoded JWT payload: the iss claim, which the validator inspects,
plus the remaining claims as an uninterpreted association list. -/
structure JwtPayload where
  iss : String
  claims : List (String × String)
deriving DecidableEq

/-- Reasons a jose jwtVerify call can reject. -/
inductive VerifyError
  | signatureInvalid
  | wrongAudience
  | malformed
  | networkFailure
  | expired
deriving DecidableEq

/-- The two distinct rejection values validateInboundJwt can produce:
the error thrown by the (uncaught) v1 jwtVerify call, or the literal
rejection with the "Unexpected issuer" message. -/
inductive AuthError
  | verifyFailed (e : VerifyError)
  | unexpectedIssuer
deriving DecidableEq

/-- Oracle for the jose jwtVerify library call made with the configured
audience option: for a key-set and a token it either throws or yields the
decoded payload. -/
def VerifyOracle : Type := KeySet → String → Except VerifyError JwtPayload

/-- Embedding of validateInboundJwt:
try jwtVerify against jwksV2, return the payload when the iss is in the
allow-list; any exception from that first attempt is swallowed and, as when
the first issuer check fails, jwtVerify is attempted against jwksV1 (this
second call is NOT wrapped in a try, so its exception propagates); a
successful second verification with allow-listed iss returns the payload,
otherwise the promise is rejected with "Unexpected issuer". -/
def validateInboundJwt (env : Env) (verify : VerifyOracle) (token : String) :
    Except AuthError JwtPayload :=
  let fallbackV1 : Except AuthError JwtPayload :=
    match verify .v1 token with
    | .ok result =>
        if (allowedIssuers env).contains result.iss then .ok result
        else .error .unexpectedIssuer
    | .error e => .error (.verifyFailed e)
  match verify .v2 token with
  | .ok result =>
      if (allowedIssuers env).contains result.iss then .ok result
      else fallbackV1
  | .error _ => fallbackV1

/-- One entry of the oboCache map: accessToken with its absolute expiry in
epoch seconds. -/
structure CacheEntry where
  accessToken : String
  expiresAt : Int
deriving DecidableEq

/-- The oboCache, a map from hex-digest cache keys to entries, modelled as
an association list with unique keys (lookup finds the first binding). -/
abbrev Cache := List (String × CacheEntry)

/-- Map.set semantics: bind key to v, overwriting any existing binding. -/
def Cache.set (cache : Cache) (key : String) (v : CacheEntry) : Cache :=
  (key, v) :: cache.filter (fun p => p.1 ≠ key)

/-- The cache-hit test of getFoAccessTokenFromObo:
an entry exists and expiresAt - 60 > now. -/
def cacheHit (cache : Cache) (key : String) (now : Int) : Bool :=
  match List.lookup key cache with
  | some cached => decide (cached.expiresAt - 60 > now)
  | none => false

/-- JavaScript `v || d` on the expires_in field: undefined (none) and the
falsy value 0 both give the default. -/
def jsOrDefault (v : Option Int) (d : Int) : Int :=
  match v with
  | none => d
  | some n => if n = 0 then d else n

/-- Parsed JSON body of a successful token-endpoint response; expires_in is
optional in the wire format. -/
structure TokenResponse where
  access_token : String
  expires_in : Option Int
deriving DecidableEq

/-- Outcome of the token-endpoint fetch: ok with a parsed JSON body, or a
non-success status with its body text. -/
inductive ExchangeResult
  | success (json : TokenResponse)
  | failure (status : Nat) (errorText : String)
deriving DecidableEq

/-- A downstream (F&O) HTTP request as assembled by fetchFo. -/
structure FetchRequest where
  url : String
  method : String
  body : Option String
  headers : List (String × String)
deriving DecidableEq

/-- A downstream HTTP response: the ok flag, status and body text. -/
structure DownstreamResponse where
  ok : Bool
  status : Nat
  body : String
deriving DecidableEq

/-- The external world: the crypto digest (hash), the token-endpoint fetch
(exchange, applied to the form-encoded parameter list) and the downstream
fetch. -/
structure World where
  hash : String → String
  exchange : List (String × String) → ExchangeResult
  downstream : FetchRequest → DownstreamResponse

/-- The cache key: digest of assertion ++ "|" ++ resource
(crypto.createHash("sha256").update(assertionJwt + "|" + FO_URL).digest("hex")). -/
def fingerprint (hash : String → String) (assertionJwt resource : String) : String :=
  hash (assertionJwt ++ "|" ++ resource)

/-- The URLSearchParams body sent to the token endpoint. -/
def oboTokenRequestParams (env : Env) (assertionJwt : String) :
    List (String × String) :=
  [("client_id", env.API_EAS_CLIENT_ID),
   ("client_secret", env.API_EAS_CLIENT_SECRET),
   ("grant_type", "urn:ietf:params:oauth:grant-type:jwt-bearer"),
   ("requested_token_use", "on_behalf_of"),
   ("scope", env.FO_URL ++ "/.default"),
   ("assertion", assertionJwt)]

deriving instance DecidableEq for Except

/-- Result of one getFoAccessTokenFromObo call: the settled promise, the
cache afterwards, and how many token-endpoint network calls were made. -/
structure OboOutcome where
  result : Except String String
  cache : Cache
  exchangeCalls : Nat
deriving DecidableEq

/-- The cache-miss path of getFoAccessTokenFromObo: one POST to the token
endpoint; a non-ok response rejects and leaves the cache alone; an ok
response is parsed, the absolute expiry computed as
now + (expires_in || 3600), the entry stored (overwriting), and the token
returned. -/
def oboExchangeStep (env : Env) (w : World) (cache : Cache) (now : Int)
    (assertionJwt cacheKey : String) : OboOutcome :=
  match w.exchange (oboTokenRequestParams env assertionJwt) with
  | .failure status errorText =>
      ⟨.error ("OBO token exchange failed: " ++ toString status ++ " " ++ errorText),
        cache, 1⟩
  | .success json =>
      let expiresAt := now + jsOrDefault json.expires_in 3600
      ⟨.ok json.access_token,
        Cache.set cache cacheKey ⟨json.access_token, expiresAt⟩, 1⟩

/-- Embedding of getFoAccessTokenFromObo: compute the fingerprint cache
key; if a cached entry exists and expiresAt - 60 > now return its token
with no network call; otherwise perform the exchange. -/
def getFoAccessTokenFromObo (env : Env) (w : World) (cache : Cache)
    (now : Int) (assertionJwt : String) : OboOutcome :=
  let cacheKey := fingerprint w.hash assertionJwt env.FO_URL
  match List.lookup cacheKey cache with
  | some cached =>
      if cached.expiresAt - 60 > now then ⟨.ok cached.accessToken, cache, 0⟩
      else oboExchangeStep env w cache now assertionJwt cacheKey
  | none => oboExchangeStep env w cache now assertionJwt cacheKey

/-- The connector's mutable instance state relevant to the proxy: the
single shared userToken field (initialised to the empty string) and the
oboCache. -/
structure ConnState where
  userToken : String
  oboCache : Cache

/-- setToken: overwrites the shared userToken field (the AsyncLocalStorage
lines in the source are commented out). -/
def setToken (st : ConnState) (token : String) : ConnState :=
  { st with userToken := token }

/-- getCurrentContext: returns the shared userToken field (the
requestContext.getStore() line in the source is commented out). -/
def getCurrentContext (st : ConnState) : String :=
  st.userToken

/-- Result of one fetchFo call: the settled promise (rejection message or
downstream response), the cache afterwards, and the network-call counts. -/
structure FetchOutcome where
  result : Except String DownstreamResponse
  cache : Cache
  exchangeCalls : Nat
  downstreamCalls : Nat
deriving DecidableEq

/-- The downstream URL fetchFo builds: FO_URL, a slash unless the pathname
already starts with one, then the pathname. -/
def foUrl (env : Env) (pathname : String) : String :=
  env.FO_URL ++ (if pathname.startsWith "/" then "" else "/") ++ pathname

/-- The headers fetchFo sets: the Authorization bearer header, Accept, and
Content-Type exactly when a body is present (the CRUD callers never preset
one). -/
def foHeaders (foToken : String) (body : Option String) : List (String × String) :=
  [("Authorization", "Bearer " ++ foToken), ("Accept", "application/json")]
    ++ (match body with
        | some _ => [("Content-Type", "application/json")]
        | none => [])

/-- Embedding of fetchFo: read the current context; reject with
"Missing user assertion for OBO" when it is falsy (the empty string),
before any network call; otherwise obtain the OBO token (propagating its
rejection) and issue the downstream fetch with the assembled URL and
headers. -/
def fetchFo (env : Env) (w : World) (st : ConnState) (now : Int)
    (pathname method : String) (body : Option String) : FetchOutcome :=
  let ctx := getCurrentContext st
  if ctx = "" then ⟨.error "Missing user assertion for OBO", st.oboCache, 0, 0⟩
  else
    let obo := getFoAccessTokenFromObo env w st.oboCache now ctx
    match obo.result with
    | .error e => ⟨.error e, obo.cache, obo.exchangeCalls, 0⟩
    | .ok foToken =>
        ⟨.ok (w.downstream ⟨foUrl env pathname, method, body, foHeaders foToken body⟩),
          obo.cache, obo.exchangeCalls, 1⟩

/-- A settled CRUD promise value: the decoded JSON payload (for read, the
response body), or the returned error-value object with its error string. -/
inductive ProxyResult
  | payload (json : String)
  | errorValue (error : String)
deriving DecidableEq

/-- Result of one CRUD proxy call: the settled promise (a raised error, or
a ProxyResult), the cache afterwards, and the network-call counts. -/
structure CrudOutcome where
  result : Except String ProxyResult
  cache : Cache
  exchangeCalls : Nat
  downstreamCalls : Nat
deriving DecidableEq

/-- createRecord: POST to /data/(entityName) with a JSON body; a non-ok
downstream response is logged and the error value
(error, "Create failed: status") is RETURNED (not raised); an ok response
returns its JSON body. Rejections from fetchFo propagate. -/
def createRecord (env : Env) (w : World) (st : ConnState) (now : Int)
    (entityName data : String) : CrudOutcome :=
  let f := fetchFo env w st now ("/data/" ++ entityName) "POST" (some data)
  match f.result with
  | .error e => ⟨.error e, f.cache, f.exchangeCalls, f.downstreamCalls⟩
  | .ok resp =>
      if resp.ok then ⟨.ok (.payload resp.body), f.cache, f.exchangeCalls, f.downstreamCalls⟩
      else
        ⟨.ok (.errorValue ("Create failed: " ++ toString resp.status)),
          f.cache, f.exchangeCalls, f.downstreamCalls⟩

/-- JavaScript truthiness of the optional query string: undefined and ""
are falsy. -/
def jsTruthyQuery : Option String → Bool
  | none => false
  | some q => !(q == "")

/-- readRecord: GET to /data/(entityName), appending ?query when the query
is truthy; a non-ok downstream response RAISES
"Network error calling F&O: status body"; an ok response is returned. -/
def readRecord (env : Env) (w : World) (st : ConnState) (now : Int)
    (entityName : String) (query : Option String) : CrudOutcome :=
  let url :=
    if jsTruthyQuery query then "/data/" ++ entityName ++ "?" ++ query.getD ""
    else "/data/" ++ entityName
  let f := fetchFo env w st now url "GET" none
  match f.result with
  | .error e => ⟨.error e, f.cache, f.exchangeCalls, f.downstreamCalls⟩
  | .ok resp =>
      if resp.ok then ⟨.ok (.payload resp.body), f.cache, f.exchangeCalls, f.downstreamCalls⟩
      else
        ⟨.error ("Network error calling F&O: " ++ toString resp.status ++ " " ++ resp.body),
          f.cache, f.exchangeCalls, f.downstreamCalls⟩

/-- updateRecord: PATCH to /data/(entityName)((key)) with a JSON body;
non-ok responses are logged and returned as (error, "Update failed: status"). -/
def updateRecord (env : Env) (w : World) (st : ConnState) (now : Int)
    (entityName key data : String) : CrudOutcome :=
  let f := fetchFo env w st now ("/data/" ++ entityName ++ "(" ++ key ++ ")") "PATCH" (some data)
  match f.result with
  | .error e => ⟨.error e, f.cache, f.exchangeCalls, f.downstreamCalls⟩
  | .ok resp =>
      if resp.ok then ⟨.ok (.payload resp.body), f.cache, f.exchangeCalls, f.downstreamCalls⟩
      else
        ⟨.ok (.errorValue ("Update failed: " ++ toString resp.status)),
          f.cache, f.exchangeCalls, f.downstreamCalls⟩

/-- deleteRecord: DELETE to /data/(entityName)((key)) with no body;
non-ok responses are logged and returned as (error, "Delete failed: status"). -/
def deleteRecord (env : Env) (w : World) (st : ConnState) (now : Int)
    (entityName key : String) : CrudOutcome :=
  let f := fetchFo env w st now ("/data/" ++ entityName ++ "(" ++ key ++ ")") "DELETE" none
  match f.result with
  | .error e => ⟨.error e, f.cache, f.exchangeCalls, f.downstreamCalls⟩
  | .ok resp =>
      if resp.ok then ⟨.ok (.payload resp.body), f.cache, f.exchangeCalls, f.downstreamCalls⟩
      else
        ⟨.ok (.errorValue ("Delete failed: " ++ toString resp.status)),
          f.cache, f.exchangeCalls, f.downstreamCalls⟩

/-- The single-quote character, U+0027. -/
def singleQuote : Char := Char.ofNat 39

/-- Character-level action of the global regex replace of a single quote
by two single quotes. -/
def escapeChars : List Char → List Char
  | [] => []
  | c :: cs =>
      if c = singleQuote then singleQuote :: singleQuote :: escapeChars cs
      else c :: escapeChars cs

/-- Embedding of escapeODataLiteral: value.replace of every single quote by
two single quotes. -/
def escapeODataLiteral (value : String) : String :=
  String.mk (escapeChars value.data)

/-- Value of req.headers.authorization: absent, a single string, or an
array of strings. -/
inductive HeaderValue
  | absent
  | str (s : String)
  | arr (ss : List String)
deriving DecidableEq

/-- Whitespace characters matched by the regex class backslash-s
(the ASCII ones plus the line/paragraph separators; sufficient for the
headers modelled here). -/
def isJsWhitespace (c : Char) : Bool :=
  c = ' ' || c = '\t' || c = '\n' || c = '\r' || c = '\x0b' || c = '\x0c' ||
    c = '\u00A0' || c = '\u2028' || c = '\u2029'

/-- Line terminators, which the dot of the regex does not match. -/
def isLineTerminator (c : Char) : Bool :=
  c = '\n' || c = '\r' || c = '\u2028' || c = '\u2029'

/-- Backtracking for the greedy whitespace run: with the first k characters
of rest being whitespace, try giving the capture the suffix after k
whitespace characters, k descending; the capture must be non-empty and free
of line terminators. -/
def bearerTail (rest : List Char) : Nat → Option String
  | 0 => none
  | k + 1 =>
      let tok := rest.drop (k + 1)
      if !tok.isEmpty && tok.all (fun c => !isLineTerminator c) then some (String.mk tok)
      else bearerTail rest k

/-- The exec of the anchored case-insensitive regex: the string must begin
with the six letters of the bearer scheme (any case), then one or more
whitespace characters, then the captured token (one or more characters,
none a line terminator). Returns the captured group. -/
def execBearerRegex (auth : String) : Option String :=
  let cs := auth.data
  if (cs.take 6).map Char.toLower = "bearer".data then
    let rest := cs.drop 6
    bearerTail rest ((rest.takeWhile isJsWhitespace).length)
  else none

/-- The observable outcome of one authMiddleware invocation: a response
with status and the JSON payload fields, or the invocation of the
downstream handler inside a request context carrying the token. -/
inductive MwOutcome
  | rejected (status : Nat) (isSuccess : Bool) (message : String)
  | authorized (assertion : String)
deriving DecidableEq

/-- Embedding of authMiddleware: a missing, empty or array-valued
authorization header responds 200 with isSuccess false; a header not
matched by the bearer regex responds 200; an (unreachable) empty captured
token responds 200; then validateInboundJwt decides between invoking next
inside requestContext.run with the token, and a 200 isSuccess-false
response. -/
def authMiddleware (env : Env) (verify : VerifyOracle) (header : HeaderValue) :
    MwOutcome :=
  match header with
  | .absent => .rejected 200 false "Missing Authorization header"
  | .arr _ => .rejected 200 false "Missing Authorization header"
  | .str auth =>
      if auth = "" then .rejected 200 false "Missing Authorization header"
      else
        match execBearerRegex auth with
        | none => .rejected 200 false "Invalid Authorization header"
        | some token =>
            if token = "" then .rejected 200 false "Missing token"
            else
              match validateInboundJwt env verify token with
              | .ok _ => .authorized token
              | .error _ => .rejected 200 false "Unauthorized - Invalid or expired token"

/-- Interleaved events of concurrently handled requests against one shared
connector instance: a route handler calling setToken, or a proxy call
reading getCurrentContext to choose the assertion for its downstream call.
The request id records which inbound request the event belongs to. -/
inductive ReqEvent
  | setTok (reqId : Nat) (token : String)
  | readCtx (reqId : Nat)

/-- Runs an interleaving of request events against the shared connector
state, recording for each context read which request performed it and
which assertion it observed (the assertion its downstream call uses). -/
def runRequests (st : ConnState) : List ReqEvent → List (Nat × String)
  | [] => []
  | .setTok _ t :: rest => runRequests (setToken st t) rest
  | .readCtx r :: rest => (r, getCurrentContext st) :: runRequests st rest

/-! Helper lemmas about the embedded operations. -/

theorem lookup_filter_ne (cache : Cache) (key k : String) (h : k ≠ key) :
    List.lookup k (cache.filter (fun p => p.1 ≠ key)) = List.lookup k cache := by
  induction cache with
  | nil => rfl
  | cons p rest ih =>
      obtain ⟨a, v⟩ := p
      by_cases hp : a = key
      · subst hp
        have hk : (k == a) = false := by simpa using h
        simpa [List.filter_cons, List.lookup, hk] using ih
      · by_cases hka : k = a
        · subst hka
          simp [List.filter_cons, List.lookup, hp]
        · have hk : (k == a) = false := by simpa using hka
          simpa [List.filter_cons, List.lookup, hp, hk] using ih

theorem lookup_set_self (cache : Cache) (key : String) (v : CacheEntry) :
    List.lookup key (Cache.set cache key v) = some v := by
  simp [Cache.set, List.lookup]

theorem lookup_set_ne (cache : Cache) (key k : String) (v : CacheEntry) (h : k ≠ key) :
    List.lookup k (Cache.set cache key v) = List.lookup k cache := by
  have hk : (k == key) = false := by simpa using h
  unfold Cache.set
  simp only [List.lookup, hk]
  exact lookup_filter_ne cache key k h

theorem getFo_hit (env : Env) (w : World) (cache : Cache) (now : Int)
    (assertion : String) (c : CacheEntry)
    (hl : List.lookup (fingerprint w.hash assertion env.FO_URL) cache = some c)
    (hc : c.expiresAt - 60 > now) :
    getFoAccessTokenFromObo env w cache now assertion = ⟨.ok c.accessToken, cache, 0⟩ := by
  have hc' : now < c.expiresAt - 60 := hc
  simp only [getFoAccessTokenFromObo]
  rw [hl]
  simp [hc']

theorem getFo_miss (env : Env) (w : World) (cache : Cache) (now : Int)
    (assertion : String)
    (hm : cacheHit cache (fingerprint w.hash assertion env.FO_URL) now = false) :
    getFoAccessTokenFromObo env w cache now assertion =
      oboExchangeStep env w cache now assertion
        (fingerprint w.hash assertion env.FO_URL) := by
  unfold cacheHit at hm
  simp only [getFoAccessTokenFromObo]
  cases hl : List.lookup (fingerprint w.hash assertion env.FO_URL) cache with
  | none => simp [hl]
  | some c =>
      rw [hl] at hm
      simp only [decide_eq_false_iff_not] at hm
      have hm' : ¬(now < c.expiresAt - 60) := hm
      simp [hl, hm']

theorem cacheHit_true_elim (cache : Cache) (key : String) (now : Int)
    (hh : cacheHit cache key now = true) :
    ∃ c, List.lookup key cache = some c ∧ c.expiresAt - 60 > now := by
  unfold cacheHit at hh
  cases hl : List.lookup key cache with
  | none => rw [hl] at hh; simp at hh
  | some c =>
      rw [hl] at hh
      simp only [decide_eq_true_eq] at hh
      exact ⟨c, rfl, hh⟩

theorem fetchFo_missing_assertion (env : Env) (w : World) (cache : Cache)
    (now : Int) (pathname method : String) (body : Option String) :
    fetchFo env w ⟨"", cache⟩ now pathname method body =
      ⟨.error "Missing user assertion for OBO", cache, 0, 0⟩ := by
  simp [fetchFo, getCurrentContext]

theorem fetchFo_authorized (env : Env) (w : World) (st : ConnState) (now : Int)
    (pathname method : String) (body : Option String) (tok : String)
    (htok : st.userToken ≠ "")
    (hobo : (getFoAccessTokenFromObo env w st.oboCache now st.userToken).result = .ok tok) :
    fetchFo env w st now pathname method body =
      ⟨.ok (w.downstream ⟨foUrl env pathname, method, body, foHeaders tok body⟩),
        (getFoAccessTokenFromObo env w st.oboCache now st.userToken).cache,
        (getFoAccessTokenFromObo env w st.oboCache now st.userToken).exchangeCalls, 1⟩ := by
  unfold fetchFo getCurrentContext
  rw [if_neg htok]
  simp only [hobo]

theorem escapeChars_no_quote (cs : List Char) (h : ∀ c ∈ cs, c ≠ singleQuote) :
    escapeChars cs = cs := by
  induction cs with
  | nil => rfl
  | cons c rest ih =>
      have hc : c ≠ singleQuote := h c (List.mem_cons_self c rest)
      have hrest : ∀ x ∈ rest, x ≠ singleQuote := fun x hx => h x (List.mem_cons_of_mem c hx)
      simp [escapeChars, hc, ih hrest]

theorem escapeChars_count (cs : List Char) :
    (escapeChars cs).count singleQuote = 2 * cs.count singleQuote := by
  induction cs with
  | nil => rfl
  | cons c rest ih =>
      by_cases hc : c = singleQuote
      · subst hc
        simp [escapeChars, List.count_cons, ih]
        ring
      · simp [escapeChars, hc, List.count_cons, ih]

theorem escapeChars_length (cs : List Char) :
    (escapeChars cs).length = cs.length + cs.count singleQuote := by
  induction cs with
  | nil => rfl
  | cons c rest ih =>
      by_cases hc : c = singleQuote
      · subst hc
        simp [escapeChars, List.count_cons, ih]
        ring
      · simp [escapeChars, hc, List.count_cons, ih]
        omega

theorem escapeChars_filter_other (cs : List Char) :
    (escapeChars cs).filter (fun c => c ≠ singleQuote) =
      cs.filter (fun c => c ≠ singleQuote) := by
  induction cs with
  | nil => rfl
  | cons c rest ih =>
      by_cases hc : c = singleQuote
      · subst hc
        simpa [escapeChars, List.filter_cons] using ih
      · simpa [escapeChars, List.filter_cons, hc] using ih

theorem bearerTail_some_ne_empty (rest : List Char) :
    ∀ (k : Nat) (t : String), bearerTail rest k = some t → t ≠ "" := by
  intro k
  induction k with
  | zero => intro t h; exact absurd h (by simp [bearerTail])
  | succ k ih =>
      intro t h
      unfold bearerTail at h
      by_cases hc : (!(rest.drop (k + 1)).isEmpty &&
          (rest.drop (k + 1)).all (fun c => !isLineTerminator c)) = true
      · rw [if_pos hc] at h
        have hne : (rest.drop (k + 1)).isEmpty = false := by
          rcases Bool.and_eq_true_iff.mp hc with ⟨h1, _⟩
          simpa using h1
        have hlist : rest.drop (k + 1) ≠ [] := by
          intro hnil
          rw [hnil] at hne
          simp [List.isEmpty] at hne
        have ht : String.mk (rest.drop (k + 1)) = t := Option.some.inj h
        intro hempty
        apply hlist
        have hmk : String.mk (rest.drop (k + 1)) = "" := by rw [ht, hempty]
        exact congrArg String.data hmk
      · rw [if_neg hc] at h
        exact ih t h

theorem execBearer_token_ne_empty (auth t : String)
    (h : execBearerRegex auth = some t) : t ≠ "" := by
  simp only [execBearerRegex] at h
  by_cases hb : ((auth.data.take 6).map Char.toLower = "bearer".data)
  · rw [if_pos hb] at h
    exact bearerTail_some_ne_empty _ _ _ h
  · rw [if_neg hb] at h
    exact absurd h (by simp)

/-! Concrete instances used by witnesses and counterexamples. -/

/-- A concrete configuration. -/
def cEnv : Env := ⟨"tid", "cid", "secret", "https://fo.example.com", "api://cid"⟩

/-- A jwtVerify oracle for which both key-set verifications throw a
signature error. -/
def cVerifyBothFail : VerifyOracle := fun _ _ => .error .signatureInvalid

/-- A jwtVerify oracle for which verification succeeds with the
allow-listed v2 issuer. -/
def cVerifyOkV2 : VerifyOracle := fun _ _ => .ok ⟨ISSUER_V2 cEnv, []⟩

/-- A world whose token exchange succeeds and whose downstream always
answers a non-success 400. -/
def cWorldFailDownstream : World :=
  { hash := fun s => s ++ "#digest"
    exchange := fun _ => .success ⟨"foTok", some 3600⟩
    downstream := fun _ => ⟨false, 400, "bad request"⟩ }

/-- A world whose token exchange answers a non-success 500. -/
def cWorldExchangeFail : World :=
  { hash := fun s => s ++ "#digest"
    exchange := fun _ => .failure 500 "oops"
    downstream := fun _ => ⟨true, 200, "{}"⟩ }

/-- A world whose token exchange succeeds with expires_in 3600. -/
def cWorldExchangeOk : World :=
  { hash := fun s => s ++ "#digest"
    exchange := fun _ => .success ⟨"foTok", some 3600⟩
    downstream := fun _ => ⟨true, 200, "{}"⟩ }

/-- A world with the identity stand-in digest (injective, so usable to
instantiate the collision-resistance hypothesis). -/
def cWorldIdHash : World :=
  { hash := fun s => s
    exchange := fun _ => .failure 1 "x"
    downstream := fun _ => ⟨true, 200, "{}"⟩ }

/-- A world that only completes the exchange for request A's assertion and
only accepts downstream calls bearing the token exchanged from it. -/
def cWorldA : World :=
  { hash := fun s => s ++ "#digest"
    exchange := fun ps =>
      if ps = oboTokenRequestParams cEnv "assertionA" then .success ⟨"foTokA", some 3600⟩
      else .failure 400 "wrong assertion"
    downstream := fun req =>
      if req.headers.contains ("Authorization", "Bearer foTokA") then ⟨true, 201, "createdWithTokenA"⟩
      else ⟨false, 401, "unauthorized"⟩ }

/-! The claims. -/

/-- C9: escapeODataLiteral replaces each single-quote character by two
single-quote characters and leaves all other characters unchanged:
quote-free strings are fixed points, the quote count doubles, the length
grows by exactly the number of quotes, the subsequence of non-quote
characters is untouched, and the examples of the specification hold. -/
theorem escape_odata_doubles_quotes (value : String) :
    ((∀ c ∈ value.data, c ≠ singleQuote) → escapeODataLiteral value = value)
  ∧ (escapeODataLiteral value).data.count singleQuote = 2 * value.data.count singleQuote
  ∧ (escapeODataLiteral value).data.length = value.data.length + value.data.count singleQuote
  ∧ (escapeODataLiteral value).data.filter (fun c => c ≠ singleQuote)
      = value.data.filter (fun c => c ≠ singleQuote)
  ∧ escapeODataLiteral "O'Brien" = "O''Brien"
  ∧ escapeODataLiteral "" = "" := by
  obtain ⟨d⟩ := value
  refine ⟨?_, escapeChars_count d, escapeChars_length d, escapeChars_filter_other d,
    by decide, by decide⟩
  intro h
  show String.mk (escapeChars d) = String.mk d
  rw [escapeChars_no_quote d h]

/-- Witness for C9: the quote-free fixed point at a concrete string. -/
theorem escape_odata_doubles_quotes_witness :
    escapeODataLiteral "no quotes" = "no quotes" :=
  (escape_odata_doubles_quotes "no quotes").1 (by decide)

/-- C7: invoked with an empty (absent) current assertion, every CRUD proxy
operation rejects with the missing-assertion error and performs no
token-exchange and no downstream network call, leaving the cache
untouched. -/
theorem crud_requires_assertion (env : Env) (w : World) (cache : Cache) (now : Int)
    (entityName data key : String) (query : Option String) :
    createRecord env w ⟨"", cache⟩ now entityName data
        = ⟨.error "Missing user assertion for OBO", cache, 0, 0⟩
  ∧ readRecord env w ⟨"", cache⟩ now entityName query
        = ⟨.error "Missing user assertion for OBO", cache, 0, 0⟩
  ∧ updateRecord env w ⟨"", cache⟩ now entityName key data
        = ⟨.error "Missing user assertion for OBO", cache, 0, 0⟩
  ∧ deleteRecord env w ⟨"", cache⟩ now entityName key
        = ⟨.error "Missing user assertion for OBO", cache, 0, 0⟩ := by
  refine ⟨?_, ?_, ?_, ?_⟩ <;>
    simp [createRecord, readRecord, updateRecord, deleteRecord, fetchFo_missing_assertion]

/-- C10: when the token endpoint answers non-success, the cache is left
exactly as it was (no entry created, overwritten or removed), and when the
call was not a cache hit the promise rejects with the exchange-failure
message; the cache is only written after a successful exchange. -/
theorem obo_exchange_failure_atomic (env : Env) (w : World) (cache : Cache)
    (now : Int) (assertion : String) (status : Nat) (body : String)
    (hex : w.exchange (oboTokenRequestParams env assertion) = .failure status body) :
    (getFoAccessTokenFromObo env w cache now assertion).cache = cache
  ∧ (cacheHit cache (fingerprint w.hash assertion env.FO_URL) now = false →
      (getFoAccessTokenFromObo env w cache now assertion).result =
        .error ("OBO token exchange failed: " ++ toString status ++ " " ++ body)) := by
  constructor
  · by_cases hh : cacheHit cache (fingerprint w.hash assertion env.FO_URL) now = true
    · obtain ⟨c, hl, hc⟩ := cacheHit_true_elim _ _ _ hh
      rw [getFo_hit env w cache now assertion c hl hc]
    · have hm : cacheHit cache (fingerprint w.hash assertion env.FO_URL) now = false := by
        revert hh
        cases cacheHit cache (fingerprint w.hash assertion env.FO_URL) now <;> simp
      rw [getFo_miss env w cache now assertion hm]
      simp [oboExchangeStep, hex]
  · intro hm
    rw [getFo_miss env w cache now assertion hm]
    simp [oboExchangeStep, hex]

/-- Witness for C10 at a concrete failing exchange. -/
theorem obo_exchange_failure_atomic_witness :
    (getFoAccessTokenFromObo cEnv cWorldExchangeFail [] 0 "assertA").cache = ([] : Cache)
  ∧ (cacheHit [] (fingerprint cWorldExchangeFail.hash "assertA" cEnv.FO_URL) 0 = false →
      (getFoAccessTokenFromObo cEnv cWorldExchangeFail [] 0 "assertA").result =
        .error ("OBO token exchange failed: " ++ toString 500 ++ " " ++ "oops")) :=
  obo_exchange_failure_atomic cEnv cWorldExchangeFail [] 0 "assertA" 500 "oops" (by decide)

/-- C4: on a stale or absent entry, getFoAccessTokenFromObo performs
exactly one exchange call; on success it returns the new token and stores
(accessToken, expiresAt = now + expires_in, defaulting to now + 3600 when
expires_in is absent) under the fingerprint, overwriting any existing
entry and leaving every other fingerprint unchanged. -/
theorem obo_refresh_on_expiry (env : Env) (w : World) (cache : Cache) (now : Int)
    (assertion : String) (resp : TokenResponse)
    (hm : cacheHit cache (fingerprint w.hash assertion env.FO_URL) now = false)
    (hex : w.exchange (oboTokenRequestParams env assertion) = .success resp) :
    (getFoAccessTokenFromObo env w cache now assertion).exchangeCalls = 1
  ∧ (getFoAccessTokenFromObo env w cache now assertion).result = .ok resp.access_token
  ∧ List.lookup (fingerprint w.hash assertion env.FO_URL)
        (getFoAccessTokenFromObo env w cache now assertion).cache
      = some ⟨resp.access_token, now + jsOrDefault resp.expires_in 3600⟩
  ∧ (resp.expires_in = none →
      List.lookup (fingerprint w.hash assertion env.FO_URL)
          (getFoAccessTokenFromObo env w cache now assertion).cache
        = some ⟨resp.access_token, now + 3600⟩)
  ∧ (∀ k, k ≠ fingerprint w.hash assertion env.FO_URL →
      List.lookup k (getFoAccessTokenFromObo env w cache now assertion).cache
        = List.lookup k cache) := by
  rw [getFo_miss env w cache now assertion hm]
  refine ⟨?_, ?_, ?_, ?_, ?_⟩
  · simp [oboExchangeStep, hex]
  · simp [oboExchangeStep, hex]
  · simp [oboExchangeStep, hex, lookup_set_self]
  · intro hnone
    simp [oboExchangeStep, hex, hnone, jsOrDefault, lookup_set_self]
  · intro k hk
    simp only [oboExchangeStep, hex]
    exact lookup_set_ne cache (fingerprint w.hash assertion env.FO_URL) k _ hk

/-- Witness for C4 at a concrete stale cache and successful exchange. -/
theorem obo_refresh_on_expiry_witness :
    (getFoAccessTokenFromObo cEnv cWorldExchangeOk [] 0 "assertA").exchangeCalls = 1
  ∧ (getFoAccessTokenFromObo cEnv cWorldExchangeOk [] 0 "assertA").result = .ok "foTok"
  ∧ List.lookup (fingerprint cWorldExchangeOk.hash "assertA" cEnv.FO_URL)
        (getFoAccessTokenFromObo cEnv cWorldExchangeOk [] 0 "assertA").cache
      = some ⟨"foTok", 0 + jsOrDefault (some 3600) 3600⟩ := by
  have h := obo_refresh_on_expiry cEnv cWorldExchangeOk [] 0 "assertA"
    ⟨"foTok", some 3600⟩ (by decide) (by decide)
  exact ⟨h.1, h.2.1, h.2.2.1⟩

/-- C3: a cache-miss call followed, inside the stored validity window
(expiresAt - 60 > now), by a second call for the same assertion and
resource: both calls return the identical access token, exactly one
token-exchange network call is performed in total (the second call hits
the cache, performs no network call and leaves the cache unchanged). -/
theorem obo_cache_hit_idempotent (env : Env) (w : World) (cache : Cache)
    (now1 now2 : Int) (assertion : String) (resp : TokenResponse)
    (hm : cacheHit cache (fingerprint w.hash assertion env.FO_URL) now1 = false)
    (hex : w.exchange (oboTokenRequestParams env assertion) = .success resp)
    (hwin : now1 + jsOrDefault resp.expires_in 3600 - 60 > now2) :
    (getFoAccessTokenFromObo env w cache now1 assertion).result = .ok resp.access_token
  ∧ (getFoAccessTokenFromObo env w
        (getFoAccessTokenFromObo env w cache now1 assertion).cache now2 assertion).result
      = .ok resp.access_token
  ∧ (getFoAccessTokenFromObo env w cache now1 assertion).exchangeCalls
      + (getFoAccessTokenFromObo env w
          (getFoAccessTokenFromObo env w cache now1 assertion).cache now2 assertion).exchangeCalls
      = 1
  ∧ (getFoAccessTokenFromObo env w
        (getFoAccessTokenFromObo env w cache now1 assertion).cache now2 assertion).cache
      = (getFoAccessTokenFromObo env w cache now1 assertion).cache := by
  have h1 : getFoAccessTokenFromObo env w cache now1 assertion =
      oboExchangeStep env w cache now1 assertion (fingerprint w.hash assertion env.FO_URL) :=
    getFo_miss env w cache now1 assertion hm
  have hstep : oboExchangeStep env w cache now1 assertion (fingerprint w.hash assertion env.FO_URL)
      = ⟨.ok resp.access_token,
          Cache.set cache (fingerprint w.hash assertion env.FO_URL)
            ⟨resp.access_token, now1 + jsOrDefault resp.expires_in 3600⟩, 1⟩ := by
    simp [oboExchangeStep, hex]
  rw [h1, hstep]
  have hl : List.lookup (fingerprint w.hash assertion env.FO_URL)
      (Cache.set cache (fingerprint w.hash assertion env.FO_URL)
        ⟨resp.access_token, now1 + jsOrDefault resp.expires_in 3600⟩)
      = some ⟨resp.access_token, now1 + jsOrDefault resp.expires_in 3600⟩ :=
    lookup_set_self _ _ _
  have h2 := getFo_hit env w
    (Cache.set cache (fingerprint w.hash assertion env.FO_URL)
      ⟨resp.access_token, now1 + jsOrDefault resp.expires_in 3600⟩)
    now2 assertion ⟨resp.access_token, now1 + jsOrDefault resp.expires_in 3600⟩ hl hwin
  rw [h2]
  exact ⟨rfl, rfl, rfl, rfl⟩

/-- Witness for C3 at a concrete miss-then-hit pair of calls. -/
theorem obo_cache_hit_idempotent_witness :
    (getFoAccessTokenFromObo cEnv cWorldExchangeOk [] 0 "assertA").result = .ok "foTok"
  ∧ (getFoAccessTokenFromObo cEnv cWorldExchangeOk
        (getFoAccessTokenFromObo cEnv cWorldExchangeOk [] 0 "assertA").cache 100 "assertA").result
      = .ok "foTok" := by
  have h := obo_cache_hit_idempotent cEnv cWorldExchangeOk [] 0 100 "assertA"
    ⟨"foTok", some 3600⟩ (by decide) (by decide) (by decide)
  exact ⟨h.1, h.2.1⟩

theorem contains_allowed (env : Env) (x : String) :
    (allowedIssuers env).contains x = true ↔
      (x = ISSUER_V2 env ∨ x = ISSUER_V1 env) := by
  simp [allowedIssuers, List.contains]

/-- C2 (amended): validateInboundJwt first attempts verification against
the v2 key-set and returns the claims when that succeeds with an
allow-listed iss; when that attempt raises or its issuer check fails it
attempts the v1 key-set and returns the claims when that succeeds with an
allow-listed iss; when the v1 attempt succeeds with a non-allow-listed iss
it fails with UnexpectedIssuer; when the v1 attempt itself raises, that
verification error is what propagates (not UnexpectedIssuer). A
successfully validated result always has iss in the issuer allow-list. -/
theorem validate_issuer_fallback (env : Env) (verify : VerifyOracle) (token : String) :
    (∀ p, verify .v2 token = .ok p → (allowedIssuers env).contains p.iss = true →
        validateInboundJwt env verify token = .ok p)
  ∧ (∀ q, (∀ p, verify .v2 token = .ok p → (allowedIssuers env).contains p.iss = false) →
        verify .v1 token = .ok q → (allowedIssuers env).contains q.iss = true →
        validateInboundJwt env verify token = .ok q)
  ∧ (∀ q, (∀ p, verify .v2 token = .ok p → (allowedIssuers env).contains p.iss = false) →
        verify .v1 token = .ok q → (allowedIssuers env).contains q.iss = false →
        validateInboundJwt env verify token = .error .unexpectedIssuer)
  ∧ (∀ e, (∀ p, verify .v2 token = .ok p → (allowedIssuers env).contains p.iss = false) →
        verify .v1 token = .error e →
        validateInboundJwt env verify token = .error (.verifyFailed e))
  ∧ (∀ p, validateInboundJwt env verify token = .ok p →
        (p.iss = ISSUER_V2 env ∨ p.iss = ISSUER_V1 env)) := by
  refine ⟨?_, ?_, ?_, ?_, ?_⟩
  · intro p hv2 hc
    have hc' : p.iss ∈ allowedIssuers env := by simpa using hc
    simp [validateInboundJwt, hv2, hc']
  · intro q hv2bad hv1 hcq
    have hcq' : q.iss ∈ allowedIssuers env := by simpa using hcq
    cases hv2 : verify .v2 token with
    | ok p =>
        have hcp : p.iss ∉ allowedIssuers env := by simpa using hv2bad p hv2
        simp [validateInboundJwt, hv2, hcp, hv1, hcq']
    | error e =>
        simp [validateInboundJwt, hv2, hv1, hcq']
  · intro q hv2bad hv1 hcq
    have hcq' : q.iss ∉ allowedIssuers env := by simpa using hcq
    cases hv2 : verify .v2 token with
    | ok p =>
        have hcp : p.iss ∉ allowedIssuers env := by simpa using hv2bad p hv2
        simp [validateInboundJwt, hv2, hcp, hv1, hcq']
    | error e =>
        simp [validateInboundJwt, hv2, hv1, hcq']
  · intro e hv2bad hv1
    cases hv2 : verify .v2 token with
    | ok p =>
        have hcp : p.iss ∉ allowedIssuers env := by simpa using hv2bad p hv2
        simp [validateInboundJwt, hv2, hcp, hv1]
    | error e2 =>
        simp [validateInboundJwt, hv2, hv1]
  · intro p hres
    simp only [validateInboundJwt] at hres
    cases hv2 : verify .v2 token with
    | ok p2 =>
        by_cases hc2 : p2.iss ∈ allowedIssuers env
        · have hp2 : p2 = p := by simpa [hv2, hc2] using hres
          subst hp2
          exact (contains_allowed env p2.iss).mp (by simpa using hc2)
        · cases hv1 : verify .v1 token with
          | ok q =>
              by_cases hcq : q.iss ∈ allowedIssuers env
              · have hq : q = p := by simpa [hv2, hc2, hv1, hcq] using hres
                subst hq
                exact (contains_allowed env q.iss).mp (by simpa using hcq)
              · exact absurd hres (by simp [hv2, hc2, hv1, hcq])
          | error e =>
              exact absurd hres (by simp [hv2, hc2, hv1])
    | error e2 =>
        cases hv1 : verify .v1 token with
        | ok q =>
            by_cases hcq : q.iss ∈ allowedIssuers env
            · have hq : q = p := by simpa [hv2, hv1, hcq] using hres
              subst hq
              exact (contains_allowed env q.iss).mp (by simpa using hcq)
            · exact absurd hres (by simp [hv2, hv1, hcq])
        | error e =>
            exact absurd hres (by simp [hv2, hv1])

/-- C2 counterexample: when the v2 attempt throws and the v1 attempt also
throws (here a signature error), validateInboundJwt rejects with the
propagated verification error, not with UnexpectedIssuer, refuting
"in every other case it fails with UnexpectedIssuer". -/
theorem validate_not_always_unexpected_issuer :
    validateInboundJwt cEnv cVerifyBothFail "tok"
        = .error (.verifyFailed .signatureInvalid)
  ∧ validateInboundJwt cEnv cVerifyBothFail "tok" ≠ .error .unexpectedIssuer := by
  decide

/-- Witness for the amended C2 at a concrete successful v2 validation. -/
theorem validate_issuer_fallback_witness :
    validateInboundJwt cEnv cVerifyOkV2 "tok" = .ok ⟨ISSUER_V2 cEnv, []⟩ :=
  (validate_issuer_fallback cEnv cVerifyOkV2 "tok").1 ⟨ISSUER_V2 cEnv, []⟩ rfl (by decide)

theorem append_sep_injective (a1 a2 r : String)
    (h : a1 ++ "|" ++ r = a2 ++ "|" ++ r) : a1 = a2 := by
  have hd := congrArg String.data h
  simp only [String.data_append] at hd
  apply String.ext
  exact List.append_cancel_right (List.append_cancel_right hd)

/-- C8: the cache key is the digest of assertion ++ "|" ++ resource, a pure
deterministic function: identical pairs always give the identical slot;
under collision resistance of the digest (injectivity), distinct assertions
give distinct slots; and the only key getFoAccessTokenFromObo ever adds to
the cache is that fingerprint digest — the raw assertion string is never
stored as a cache key. -/
theorem fingerprint_cache_key (env : Env) (w : World) (cache : Cache) (now : Int)
    (a1 a2 : String) (hinj : Function.Injective w.hash) (hne : a1 ≠ a2) :
    fingerprint w.hash a1 env.FO_URL ≠ fingerprint w.hash a2 env.FO_URL
  ∧ (∀ b1 b2 r1 r2 : String, b1 = b2 → r1 = r2 →
        fingerprint w.hash b1 r1 = fingerprint w.hash b2 r2)
  ∧ (∀ k e, List.lookup k (getFoAccessTokenFromObo env w cache now a1).cache = some e →
        List.lookup k cache = some e ∨ k = fingerprint w.hash a1 env.FO_URL) := by
  refine ⟨?_, ?_, ?_⟩
  · intro heq
    exact hne (append_sep_injective a1 a2 env.FO_URL (hinj heq))
  · intro b1 b2 r1 r2 hb hr
    rw [hb, hr]
  · intro k e hl
    by_cases hh : cacheHit cache (fingerprint w.hash a1 env.FO_URL) now = true
    · obtain ⟨c, hlk, hc⟩ := cacheHit_true_elim _ _ _ hh
      rw [getFo_hit env w cache now a1 c hlk hc] at hl
      exact Or.inl hl
    · have hm : cacheHit cache (fingerprint w.hash a1 env.FO_URL) now = false := by
        revert hh
        cases cacheHit cache (fingerprint w.hash a1 env.FO_URL) now <;> simp
      rw [getFo_miss env w cache now a1 hm] at hl
      cases hex : w.exchange (oboTokenRequestParams env a1) with
      | failure s b =>
          simp only [oboExchangeStep, hex] at hl
          exact Or.inl hl
      | success json =>
          simp only [oboExchangeStep, hex] at hl
          by_cases hk : k = fingerprint w.hash a1 env.FO_URL
          · exact Or.inr hk
          · rw [lookup_set_ne cache _ k _ hk] at hl
            exact Or.inl hl

/-- Witness for C8 with the (injective) identity stand-in digest. -/
theorem fingerprint_cache_key_witness :
    fingerprint cWorldIdHash.hash "assertA" cEnv.FO_URL
      ≠ fingerprint cWorldIdHash.hash "assertB" cEnv.FO_URL :=
  (fingerprint_cache_key cEnv cWorldIdHash [] 0 "assertA" "assertB"
    (fun _ _ h => h) (by decide)).1

/-- C5: with a non-success downstream response of status s, create, update
and delete do not raise and return the error value object with
"X failed: s", whereas read raises the network error carrying status and
body and never returns an error value. -/
theorem crud_error_asymmetry (env : Env) (w : World) (st : ConnState) (now : Int)
    (entityName data key : String) (query : Option String) (s : Nat) (b tok : String)
    (hdown : ∀ req, w.downstream req = ⟨false, s, b⟩)
    (htok : st.userToken ≠ "")
    (hobo : (getFoAccessTokenFromObo env w st.oboCache now st.userToken).result = .ok tok) :
    (createRecord env w st now entityName data).result
        = .ok (.errorValue ("Create failed: " ++ toString s))
  ∧ (updateRecord env w st now entityName key data).result
        = .ok (.errorValue ("Update failed: " ++ toString s))
  ∧ (deleteRecord env w st now entityName key).result
        = .ok (.errorValue ("Delete failed: " ++ toString s))
  ∧ (readRecord env w st now entityName query).result
        = .error ("Network error calling F&O: " ++ toString s ++ " " ++ b) := by
  refine ⟨?_, ?_, ?_, ?_⟩
  · simp only [createRecord]
    rw [fetchFo_authorized env w st now _ "POST" (some data) tok htok hobo]
    simp [hdown]
  · simp only [updateRecord]
    rw [fetchFo_authorized env w st now _ "PATCH" (some data) tok htok hobo]
    simp [hdown]
  · simp only [deleteRecord]
    rw [fetchFo_authorized env w st now _ "DELETE" none tok htok hobo]
    simp [hdown]
  · simp only [readRecord]
    rw [fetchFo_authorized env w st now _ "GET" none tok htok hobo]
    simp [hdown]

/-- Witness for C5 at a concrete downstream that always answers 400. -/
theorem crud_error_asymmetry_witness :
    (createRecord cEnv cWorldFailDownstream ⟨"assertA", []⟩ 0 "EmployeesV2" "{}").result
        = .ok (.errorValue ("Create failed: " ++ toString 400))
  ∧ (readRecord cEnv cWorldFailDownstream ⟨"assertA", []⟩ 0 "EmployeesV2" none).result
        = .error ("Network error calling F&O: " ++ toString 400 ++ " " ++ "bad request") := by
  have h := crud_error_asymmetry cEnv cWorldFailDownstream ⟨"assertA", []⟩ 0
    "EmployeesV2" "{}" "k" none 400 "bad request" "foTok"
    (fun _ => rfl) (by decide) (by decide)
  exact ⟨h.1, h.2.2.2⟩

theorem authMiddleware_cases (env : Env) (verify : VerifyOracle) (header : HeaderValue) :
    (∃ msg, authMiddleware env verify header = .rejected 200 false msg) ∨
    (∃ t, authMiddleware env verify header = .authorized t) := by
  cases header with
  | absent => exact Or.inl ⟨_, rfl⟩
  | arr ss => exact Or.inl ⟨_, rfl⟩
  | str auth =>
      by_cases ha : auth = ""
      · exact Or.inl ⟨"Missing Authorization header", by simp [authMiddleware, ha]⟩
      · cases hr : execBearerRegex auth with
        | none => exact Or.inl ⟨"Invalid Authorization header", by simp [authMiddleware, ha, hr]⟩
        | some t =>
            by_cases htok : t = ""
            · exact Or.inl ⟨"Missing token", by simp [authMiddleware, ha, hr, htok]⟩
            · cases hv : validateInboundJwt env verify t with
              | ok p => exact Or.inr ⟨t, by simp [authMiddleware, ha, hr, htok, hv]⟩
              | error e =>
                  exact Or.inl ⟨"Unauthorized - Invalid or expired token",
                    by simp [authMiddleware, ha, hr, htok, hv]⟩

/-- C6: every rejection path of the auth middleware (absent header,
array-valued header, header not matching the case-insensitive bearer
pattern with a non-empty token, or JWT validation failure) responds with
isSuccess false under HTTP status 200 — success-class, never 401 — and the
downstream handler is invoked exactly when the JWT validator succeeds on
the extracted token. -/
theorem middleware_rejection_uniform (env : Env) (verify : VerifyOracle)
    (header : HeaderValue) :
    (∀ st ok msg, authMiddleware env verify header = .rejected st ok msg →
        st = 200 ∧ ok = false ∧ 200 ≤ st ∧ st < 300 ∧ st ≠ 401)
  ∧ (∀ t, authMiddleware env verify header = .authorized t →
        ∃ p, validateInboundJwt env verify t = .ok p)
  ∧ (∀ auth t p, header = .str auth → execBearerRegex auth = some t →
        validateInboundJwt env verify t = .ok p →
        authMiddleware env verify header = .authorized t) := by
  refine ⟨?_, ?_, ?_⟩
  · intro st ok msg h
    rcases authMiddleware_cases env verify header with ⟨m, hm⟩ | ⟨t, ht⟩
    · rw [h] at hm
      injection hm with h1 h2 h3
      subst h1
      subst h2
      exact ⟨rfl, rfl, by decide, by decide, by decide⟩
    · rw [h] at ht
      exact absurd ht (by simp)
  · intro t h
    cases header with
    | absent => simp [authMiddleware] at h
    | arr ss => simp [authMiddleware] at h
    | str auth =>
        by_cases ha : auth = ""
        · simp [authMiddleware, ha] at h
        · cases hr : execBearerRegex auth with
          | none => simp [authMiddleware, ha, hr] at h
          | some tk =>
              by_cases htk : tk = ""
              · simp [authMiddleware, ha, hr, htk] at h
              · cases hv : validateInboundJwt env verify tk with
                | ok p =>
                    have htt : tk = t := by
                      simpa [authMiddleware, ha, hr, htk, hv] using h
                    subst htt
                    exact ⟨p, hv⟩
                | error e => simp [authMiddleware, ha, hr, htk, hv] at h
  · intro auth t p hh hr hv
    subst hh
    have ha : auth ≠ "" := by
      intro h0
      rw [h0] at hr
      have hnone : execBearerRegex "" = none := by decide
      rw [hnone] at hr
      cases hr
    have htk : t ≠ "" := execBearer_token_ne_empty auth t hr
    simp [authMiddleware, ha, hr, htk, hv]

/-- Witness for C6: a concrete authorized pass-through and a concrete
rejection, both through the theorem. -/
theorem middleware_rejection_uniform_witness :
    authMiddleware cEnv cVerifyOkV2 (.str "Bearer tok") = .authorized "tok"
  ∧ (200 = 200 ∧ false = false ∧ 200 ≤ 200 ∧ 200 < 300 ∧ (200 : Nat) ≠ 401) := by
  constructor
  · exact (middleware_rejection_uniform cEnv cVerifyOkV2 (.str "Bearer tok")).2.2
      "Bearer tok" "tok" ⟨ISSUER_V2 cEnv, []⟩ rfl (by decide) (by decide)
  · exact (middleware_rejection_uniform cEnv cVerifyOkV2 .absent).1 200 false
      "Missing Authorization header" (by decide)

/-- C1 (violated by the code): with the shared userToken field, the
interleaving in which request 0's GET handler calls setToken("assertionA")
and request 1's handler (the POST route never calls setToken) then reads
the context makes request 1's downstream call observe request 0's
assertion; concretely, createRecord executed in that shared state succeeds
against a downstream that only accepts the bearer token exchanged from
request 0's assertion, even though request 1's own assertion is the
different string "assertionB". -/
theorem shared_context_leaks_between_requests :
    runRequests ⟨"", []⟩ [.setTok 0 "assertionA", .readCtx 0, .readCtx 1]
        = [(0, "assertionA"), (1, "assertionA")]
  ∧ (createRecord cEnv cWorldA ⟨"assertionA", []⟩ 0 "EmployeesV2" "{}").result
        = .ok (.payload "createdWithTokenA")
  ∧ "assertionA" ≠ "assertionB" :=
  ⟨by decide, by decide, by decide⟩

end D365
